import Mathlib

/-!
Shallow embedding of the skilljack-evals scoring and aggregation engine:
the deterministic scorer (`src/scorer/deterministic.ts`), the score merger
(`mergeScores`), the pure logic of the LLM judge (`src/scorer/judge.ts`), and the
multi-run aggregator (`src/scorer/aggregator.ts`).  JavaScript numbers are
modelled as rationals, JS `undefined` as `Option.none`, and arrays as lists.
-/

/-- Single-quote character as a string, used inside detail messages. -/
def sqc : String := "\x27"

/-- Substring search on lists of characters: `subAux pat l` is true iff `pat`
occurs contiguously inside `l`.  Models JavaScript `String.prototype.includes`. -/
def subAux (pat : List Char) : List Char → Bool
  | [] => pat.isEmpty
  | c :: t => pat.isPrefixOf (c :: t) || subAux pat t

/-- Models JavaScript `s.includes(pat)`: `strContainsSub s pat`. -/
def strContainsSub (s pat : String) : Bool :=
  subAux pat.toList s.toList

/-- First truthy value in a list of optional strings: models a chain of
JavaScript `||` over possibly-undefined string fields (empty string is falsy). -/
def firstTruthy : List (Option String) → Option String
  | [] => none
  | x :: xs =>
    match x with
    | some s => if s = "" then firstTruthy xs else some s
    | none => firstTruthy xs

/-- Deduplication keeping the first occurrence of each element, in order.
Models JavaScript `[...new Set(list)]` and insertion-ordered `Map` keys. -/
def firstOccur (seen : List String) : List String → List String
  | [] => []
  | x :: xs => if x ∈ seen then firstOccur seen xs else x :: firstOccur (x :: seen) xs

-- ============================================
-- Data model (src/types.ts)
-- ============================================

/-- Input object of a skill tool call; `extractSkillName` probes the fields
`skill`, `skill_name`, `name` in this order (src/types.ts `ToolCallRecord.input`
is untyped; only these fields are ever read). -/
structure SkillToolInput where
  skill : Option String
  skill_name : Option String
  name : Option String
deriving DecidableEq, Repr, Inhabited

/-- One recorded tool invocation (`ToolCallRecord`).  `input = none` models a
non-object or absent input. -/
structure ToolCallRecord where
  tool : String
  toolUseId : String
  timestamp : ℚ
  input : Option SkillToolInput
deriving DecidableEq, Repr, Inhabited

/-- Deterministic check spec of a task (`DeterministicCheck`). -/
structure DeterministicCheck where
  expectSkillActivation : Bool
  expectMarker : Option String
  expectToolCalls : Option (List String)
  expectNoToolCalls : Option (List String)
deriving DecidableEq, Repr, Inhabited

/-- One weighted scoring criterion (`EvalCriteria`). -/
structure EvalCriteria where
  dimension : String
  weight : ℚ
  description : String
deriving DecidableEq, Repr, Inhabited

/-- An evaluation task (`EvalTask`); the fixture block is irrelevant to scoring
and omitted. -/
structure EvalTask where
  id : String
  prompt : String
  expectedSkillLoad : String
  criteria : List EvalCriteria
  goldenChecklist : List String
  deterministic : Option DeterministicCheck
deriving DecidableEq, Repr, Inhabited

/-- One execution record (`TaskResult`). -/
structure TaskResult where
  taskId : String
  prompt : String
  output : String
  durationMs : ℚ
  numTurns : ℚ
  costUsd : ℚ
  skillLoads : List String
  toolCalls : List ToolCallRecord
  isError : Bool
  errorMessage : String
deriving DecidableEq, Repr, Inhabited

/-- Result of the deterministic scorer (`DeterministicResult`). -/
structure DeterministicResult where
  skillActivated : Bool
  skillName : Option String
  markerFound : Option Bool
  expectedToolsCalled : Option Bool
  unexpectedToolsCalled : Option Bool
  passed : Bool
  details : List String
deriving DecidableEq, Repr, Inhabited

/-- The closed failure-category enumeration from `src/types.ts`.  The source
stores categories as strings (the TS union type is erased at runtime), so the
embedding uses `String` and this list as the membership predicate. -/
def validFailureCategories : List String :=
  ["discovery_failure", "false_positive", "instruction_ambiguity",
   "missing_guidance", "agent_error", "none"]

/-- Judge assessment (`JudgeScore`). -/
structure JudgeScore where
  taskId : String
  discovery : ℚ
  adherence : ℚ
  outputQuality : ℚ
  weightedScore : ℚ
  failureCategory : String
  reasoning : String
deriving DecidableEq, Repr, Inhabited

/-- Merged canonical score (`CombinedScore`). -/
structure CombinedScore where
  taskId : String
  deterministic : Option DeterministicResult
  judge : Option JudgeScore
  discovery : ℚ
  adherence : ℚ
  outputQuality : ℚ
  weightedScore : ℚ
  failureCategory : String
  reasoning : String
deriving DecidableEq, Repr, Inhabited

/-- A `Map<string, number>` restricted to the three dimension keys actually
read by the source (`discovery`, `adherence`, `output`); `none` models an
absent key (so `weights.get(k) ?? d` becomes `Option.getD`). -/
structure WeightMap where
  discovery : Option ℚ
  adherence : Option ℚ
  output : Option ℚ
deriving DecidableEq, Repr, Inhabited

/-- The default weight map produced by `getDefaultWeights` with the built-in
config (`src/config.ts` DEFAULT_CONFIG.defaultWeights). -/
def defaultWeights : WeightMap :=
  { discovery := some (3/10), adherence := some (2/5), output := some (3/10) }

-- ============================================
-- Deterministic scorer (src/scorer/deterministic.ts)
-- ============================================

/-- Function `isSkillTool` from src/scorer/deterministic.ts: local mode uses "Skill",
MCP mode uses names containing "skill" but not "skill-resource". -/
def isSkillTool (toolName : String) : Bool :=
  toolName == "Skill" ||
    (strContainsSub toolName "skill" && !(strContainsSub toolName "skill-resource"))

/-- Function `extractSkillName`: probe `skill`, `skill_name`, `name` and take the first
truthy one. -/
def extractSkillName (input : Option SkillToolInput) : Option String :=
  match input with
  | none => none
  | some obj => firstTruthy [obj.skill, obj.skill_name, obj.name]

/-- The tool-call scan loop of `scoreDeterministic`: the first recognized skill
tool call that yields a truthy name wins. -/
def findActivation : List ToolCallRecord → Option String
  | [] => none
  | c :: rest =>
    if isSkillTool c.tool then
      match extractSkillName c.input with
      | some n => some n
      | none => findActivation rest
    else findActivation rest

/-- Activation evidence of a trial: the name from the first recognized skill
tool call, else the first entry of `skillLoads` (the runner-populated list). -/
def activationEvidence (result : TaskResult) : Option String :=
  match findActivation result.toolCalls with
  | some n => some n
  | none => result.skillLoads.head?

/-- The activation-policy block of `scoreDeterministic` (lines 72-95): returns
the possibly-downgraded `skillActivated` flag and the detail line pushed. -/
def activationPolicy (check : DeterministicCheck) (expectedSkillLoad : String)
    (evidence : Option String) : Bool × List String :=
  if check.expectSkillActivation then
    match evidence with
    | some name =>
      if expectedSkillLoad != "" && expectedSkillLoad != "none" then
        if name == expectedSkillLoad then
          (true, ["Skill activated correctly: " ++ name])
        else
          (false, ["Wrong skill activated: expected " ++ sqc ++ expectedSkillLoad ++ sqc ++
                   ", got " ++ sqc ++ name ++ sqc])
      else
        (true, ["Skill activated: " ++ name])
    | none => (false, ["Expected skill activation but no skill was loaded"])
  else
    match evidence with
    | some name => (true, ["Unexpected skill activation: " ++ name ++ " (false positive)"])
    | none => (false, ["Correctly did not activate any skill"])

/-- The marker check of `scoreDeterministic` (lines 97-108): case-insensitive
substring search, skipped (null) when no truthy marker is configured. -/
def markerCheck (check : DeterministicCheck) (output : String) :
    Option Bool × List String :=
  match check.expectMarker with
  | some marker =>
    if marker == "" then (none, [])
    else
      let found := strContainsSub output.toLower marker.toLower
      (some found,
       [if found then "Marker found: \"" ++ marker ++ "\""
        else "Marker not found: \"" ++ marker ++ "\""])
  | none => (none, [])

/-- The required-tools check of `scoreDeterministic` (lines 110-121). -/
def expectedToolsCheck (check : DeterministicCheck) (calledTools : List String) :
    Option Bool × List String :=
  match check.expectToolCalls with
  | some l =>
    if l.isEmpty then (none, [])
    else
      let missing := l.filter (fun t => !(calledTools.contains t))
      if missing.isEmpty then
        (some true, ["All expected tools called: " ++ String.intercalate ", " l])
      else
        (some false, ["Missing expected tool calls: " ++ String.intercalate ", " missing])
  | none => (none, [])

/-- The forbidden-tools check of `scoreDeterministic` (lines 123-134). -/
def forbiddenToolsCheck (check : DeterministicCheck) (calledTools : List String) :
    Option Bool × List String :=
  match check.expectNoToolCalls with
  | some l =>
    if l.isEmpty then (none, [])
    else
      let forbidden := l.filter (fun t => calledTools.contains t)
      if forbidden.isEmpty then (some false, ["No forbidden tools called"])
      else (some true, ["Forbidden tools were called: " ++ String.intercalate ", " forbidden])
  | none => (none, [])

/-- The overall pass computation of `scoreDeterministic` (lines 136-147). -/
def overallPass (check : DeterministicCheck) (skillActivated : Bool)
    (markerFound expectedToolsCalled unexpectedToolsCalled : Option Bool) : Bool :=
  if check.expectSkillActivation then
    skillActivated
      && (match markerFound with | some b => b | none => true)
      && (match expectedToolsCalled with | some b => b | none => true)
      && (match unexpectedToolsCalled with | some b => !b | none => true)
  else !skillActivated

/-- Function `scoreDeterministic` from src/scorer/deterministic.ts.  Returns `none` iff
the task defines no deterministic spec. -/
def scoreDeterministic (task : EvalTask) (result : TaskResult) :
    Option DeterministicResult :=
  match task.deterministic with
  | none => none
  | some check =>
    let evidence : Option String :=
      if result.isError then none else activationEvidence result
    let errDetails : List String :=
      if result.isError then ["Task errored — treating as no activation"] else []
    let act := activationPolicy check task.expectedSkillLoad evidence
    let markerPair := markerCheck check result.output
    let calledTools := result.toolCalls.map (·.tool)
    let expPair := expectedToolsCheck check calledTools
    let forbPair := forbiddenToolsCheck check calledTools
    some {
      skillActivated := act.1
      skillName := evidence
      markerFound := markerPair.1
      expectedToolsCalled := expPair.1
      unexpectedToolsCalled := forbPair.1
      passed := overallPass check act.1 markerPair.1 expPair.1 forbPair.1
      details := errDetails ++ act.2 ++ markerPair.2 ++ expPair.2 ++ forbPair.2 }

-- ============================================
-- Score merger (src/scorer/index.ts, mergeScores)
-- ============================================

/-- Discovery inversion for negative tests (`computeDiscovery` in `mergeScores`). -/
def computeDiscovery (isNegativeTest : Bool) (activated : Bool) : ℚ :=
  if isNegativeTest then (if activated then 0 else 1)
  else (if activated then 1 else 0)

/-- Function `mergeScores`: merge deterministic and judge scores into a combined score. -/
def mergeScores (taskId : String) (det : Option DeterministicResult)
    (judge : Option JudgeScore) (weights : WeightMap) (isNegativeTest : Bool) :
    CombinedScore :=
  match det, judge with
  | some det, some judge =>
    let discovery := computeDiscovery isNegativeTest det.skillActivated
    let adherence := judge.adherence
    let outputQuality := judge.outputQuality
    let adherenceNorm := (adherence - 1) / 4
    let outputNorm := (outputQuality - 1) / 4
    let weightedScore :=
      (weights.discovery.getD (3/10)) * discovery +
      (weights.adherence.getD (2/5)) * adherenceNorm +
      (weights.output.getD (3/10)) * outputNorm
    let fc0 := judge.failureCategory
    let fc1 := if !det.passed && det.skillActivated == false then "discovery_failure" else fc0
    let fc2 :=
      if det.skillActivated && det.details.any (fun d => strContainsSub d "false positive")
      then "false_positive" else fc1
    let detJoined := String.intercalate "; " det.details
    let reasons :=
      (if det.details.length > 0 then ["Deterministic: " ++ detJoined] else []) ++
      (if judge.reasoning != "" then ["Judge: " ++ judge.reasoning] else [])
    { taskId := taskId
      deterministic := some det
      judge := some judge
      discovery := discovery
      adherence := adherence
      outputQuality := outputQuality
      weightedScore := weightedScore
      failureCategory := fc2
      reasoning := String.intercalate " | " reasons }
  | some det, none =>
    let discovery := computeDiscovery isNegativeTest det.skillActivated
    let adherence : ℚ := if det.passed then 5 else 1
    let outputQuality : ℚ := if det.passed then 5 else 1
    let adherenceNorm := (adherence - 1) / 4
    let outputNorm := (outputQuality - 1) / 4
    let weightedScore :=
      (weights.discovery.getD (3/10)) * discovery +
      (weights.adherence.getD (2/5)) * adherenceNorm +
      (weights.output.getD (3/10)) * outputNorm
    let fc0 := "none"
    let fc1 :=
      if !det.skillActivated &&
         det.details.any (fun d => strContainsSub d "Expected skill activation")
      then "discovery_failure" else fc0
    let fc2 :=
      if det.details.any (fun d => strContainsSub d "false positive")
      then "false_positive" else fc1
    let detJoined := String.intercalate "; " det.details
    { taskId := taskId
      deterministic := some det
      judge := none
      discovery := discovery
      adherence := adherence
      outputQuality := outputQuality
      weightedScore := weightedScore
      failureCategory := fc2
      reasoning := "Deterministic only: " ++ detJoined }
  | none, some judge =>
    { taskId := taskId
      deterministic := none
      judge := some judge
      discovery := judge.discovery
      adherence := judge.adherence
      outputQuality := judge.outputQuality
      weightedScore := judge.weightedScore
      failureCategory := judge.failureCategory
      reasoning := judge.reasoning }
  | none, none =>
    { taskId := taskId
      deterministic := none
      judge := none
      discovery := 0
      adherence := 1
      outputQuality := 1
      weightedScore := 0
      failureCategory := "agent_error"
      reasoning := "No scoring method available (no deterministic check or LLM judge criteria defined)" }

-- ============================================
-- LLM judge (src/scorer/judge.ts) — pure logic
-- ============================================

/-- Parsed shape of the JSON reply of the judge model.  A numeric field is `none`
when absent or not a number (`Number(x)` gives `NaN`); JavaScript `x || d`
then falls back on `d`, as does a value of `0`. -/
structure JudgeResponseData where
  discovery : Option ℚ
  adherence : Option ℚ
  output_quality : Option ℚ
  failure_category : Option String
  reasoning : Option String
deriving DecidableEq, Repr, Inhabited

/-- Models `Number(v) || d`: missing / NaN / zero fall back to the default. -/
def numOr (v : Option ℚ) (d : ℚ) : ℚ :=
  match v with
  | none => d
  | some x => if x = 0 then d else x

/-- Models `v || d` on an optional string: missing or empty falls back. -/
def strOr (v : Option String) (d : String) : String :=
  match v with
  | none => d
  | some s => if s = "" then d else s

/-- Outcome of locating and `JSON.parse`-ing the first `{...}` block of the
raw response text (the regex match and `JSON.parse` builtin are abstracted to
this three-way outcome). -/
inductive ParsedJson where
  | noMatch
  | invalid
  | ok (data : JudgeResponseData)
deriving DecidableEq, Repr, Inhabited

/-- Function `createErrorScore` from src/scorer/judge.ts. -/
def createErrorScore (taskId : String) (reason : String) : JudgeScore :=
  { taskId := taskId
    discovery := 0
    adherence := 1
    outputQuality := 1
    weightedScore := 0
    failureCategory := "agent_error"
    reasoning := reason }

/-- Function `parseJudgeResponse`: turn the parsed model reply into a `JudgeScore`.
Note the failure category is taken verbatim (`data.failure_category` with a
fallback to "none", and only a type-level cast in the source). -/
def parseJudgeResponse (parsed : ParsedJson) (taskId : String)
    (weights : WeightMap) : JudgeScore :=
  match parsed with
  | .noMatch => createErrorScore taskId "Failed to parse judge response"
  | .invalid => createErrorScore taskId "Invalid JSON in judge response"
  | .ok data =>
    let discovery := numOr data.discovery 0
    let adherence := numOr data.adherence 1
    let outputQuality := numOr data.output_quality 1
    let adherenceNorm := (adherence - 1) / 4
    let outputNorm := (outputQuality - 1) / 4
    let weightedScore :=
      (weights.discovery.getD (3/10)) * discovery +
      (weights.adherence.getD (2/5)) * adherenceNorm +
      (weights.output.getD (3/10)) * outputNorm
    { taskId := taskId
      discovery := discovery
      adherence := adherence
      outputQuality := outputQuality
      weightedScore := weightedScore
      failureCategory := strOr data.failure_category "none"
      reasoning := strOr data.reasoning "" }

/-- Weights map built in `judgeResult` from the task's criteria by repeated
`Map.set` (the last criterion of a dimension wins). -/
def weightsOfCriteria (criteria : List EvalCriteria) : WeightMap :=
  let lastW := fun (dim : String) =>
    ((criteria.filter (fun c => c.dimension == dim)).getLast?).map (·.weight)
  { discovery := lastW "discovery"
    adherence := lastW "adherence"
    output := lastW "output" }

/-- Outcome of the single external model call made by `judgeResult`: either a
response (already taken through the JSON-location step) or a thrown error with
its message. -/
inductive ModelCall where
  | response (parsed : ParsedJson)
  | failure (message : String)
deriving DecidableEq, Repr, Inhabited

/-- Function `judgeResult` from src/scorer/judge.ts: short-circuit on errored trials,
otherwise parse the model reply, and on a thrown call fall back to the
heuristic score computed from `skillLoads` alone. -/
def judgeResult (task : EvalTask) (result : TaskResult) (call : ModelCall) :
    JudgeScore :=
  if result.isError then
    { taskId := task.id
      discovery := 0
      adherence := 1
      outputQuality := 1
      weightedScore := 0
      failureCategory := "agent_error"
      reasoning := "Task failed with error: " ++ result.errorMessage }
  else
    let weights := weightsOfCriteria task.criteria
    match call with
    | .response parsed => parseJudgeResponse parsed task.id weights
    | .failure msg =>
      let discovery : ℚ := if result.skillLoads.contains task.expectedSkillLoad then 1 else 0
      { taskId := task.id
        discovery := discovery
        adherence := 3
        outputQuality := 3
        weightedScore := 1/2
        failureCategory := if discovery = 0 then "discovery_failure" else "none"
        reasoning := "Heuristic scoring (judge error: " ++ msg ++ ")" }

-- ============================================
-- Multi-run aggregator (src/scorer/aggregator.ts)
-- ============================================

/-- The representative-selection loop of `aggregateResults`: running best
`(index, distance)`, where `none` models the initial `Infinity` distance and
only a strictly smaller distance replaces the best. -/
def argminGo (mean : ℚ) : List ℚ → ℕ → ℕ × Option ℚ → ℕ × Option ℚ
  | [], _, best => best
  | w :: rest, idx, best =>
    let d := |w - mean|
    let upd : Bool :=
      match best.2 with
      | none => true
      | some m => d < m
    argminGo mean rest (idx + 1) (if upd then (idx, d) else best)

/-- Index of the weighted score closest to `mean`, first index on ties. -/
def argminDist (mean : ℚ) (ws : List ℚ) : ℕ :=
  (argminGo mean ws 0 (0, none)).1

/-- The mode-selection loop of `aggregateScores`: iterate the categories in
first-seen order, keeping the first category whose count strictly exceeds the
best so far (initial best `("none", 0)`). -/
def modeGo (cats : List String) : List String → String × ℕ → String × ℕ
  | [], best => best
  | c :: rest, best =>
    modeGo cats rest (if cats.count c > best.2 then (c, cats.count c) else best)

/-- Statistical mode of the per-trial failure categories, ties broken by the
first-seen category. -/
def modeCategory (cats : List String) : String :=
  (modeGo cats (firstOccur [] cats) ("none", 0)).1

/-- Models `Number.prototype.toFixed(1)` on the (nonnegative) averages that
appear in the aggregate reasoning string: round half up to one decimal. -/
def toFixed1 (q : ℚ) : String :=
  let n : ℤ := ⌊q * 10 + 1/2⌋
  let m := n.natAbs
  (if n < 0 then "-" else "") ++ toString (m / 10) ++ "." ++ toString (m % 10)

/-- Function `aggregateResults` from src/scorer/aggregator.ts.  The JS `r[t]` index read
is modelled by `getD` with the `Inhabited` default; the claims only use it on
rectangular inputs where the default is never taken. -/
def aggregateResults (allResults : List (List TaskResult))
    (allScores : List (List CombinedScore)) : List TaskResult :=
  let numRuns := allResults.length
  if numRuns = 0 then []
  else if numRuns = 1 then allResults.headD []
  else
    let numTasks := (allResults.headD []).length
    (List.range numTasks).map (fun t =>
      let runs := allResults.map (fun r => r.getD t default)
      let scores := allScores.map (fun s => s.getD t default)
      let ws := scores.map (·.weightedScore)
      let meanWeighted := ws.sum / (numRuns : ℚ)
      let rep := runs.getD (argminDist meanWeighted ws) default
      { taskId := rep.taskId
        prompt := rep.prompt
        output := rep.output
        durationMs := (runs.map (·.durationMs)).sum
        numTurns := (runs.map (·.numTurns)).sum
        costUsd := (runs.map (·.costUsd)).sum
        skillLoads := firstOccur [] (runs.map (·.skillLoads)).flatten
        toolCalls := rep.toolCalls
        isError := runs.any (·.isError)
        errorMessage :=
          String.intercalate "; " ((runs.filter (·.isError)).map (·.errorMessage)) })

/-- Function `aggregateScores` from src/scorer/aggregator.ts. -/
def aggregateScores (allScores : List (List CombinedScore)) : List CombinedScore :=
  let numRuns := allScores.length
  if numRuns = 0 then []
  else if numRuns = 1 then allScores.headD []
  else
    let numTasks := (allScores.headD []).length
    (List.range numTasks).map (fun t =>
      let scores := allScores.map (fun s => s.getD t default)
      let avgDiscovery := (scores.map (·.discovery)).sum / (numRuns : ℚ)
      let avgAdherence := (scores.map (·.adherence)).sum / (numRuns : ℚ)
      let avgOutput := (scores.map (·.outputQuality)).sum / (numRuns : ℚ)
      let avgWeighted := (scores.map (·.weightedScore)).sum / (numRuns : ℚ)
      let modeCat := modeCategory (scores.map (·.failureCategory))
      let discoveryCount := (scores.filter (fun s => s.discovery ≥ 1)).length
      { taskId := (scores.getD 0 default).taskId
        deterministic := none
        judge := none
        discovery := avgDiscovery
        adherence := avgAdherence
        outputQuality := avgOutput
        weightedScore := avgWeighted
        failureCategory := modeCat
        reasoning :=
          "Aggregated over " ++ toString numRuns ++ " runs: discovery " ++
          toString discoveryCount ++ "/" ++ toString numRuns ++
          ", mean adherence " ++ toFixed1 avgAdherence ++
          ", mean output " ++ toFixed1 avgOutput })

-- ============================================
-- Helper lemmas
-- ============================================

/-- Characterization of the substring scan: it finds exactly the contiguous
infixes. -/
theorem subAux_eq_true_iff (pat : List Char) :
    ∀ l : List Char, subAux pat l = true ↔ pat <:+: l := by
  intro l
  induction l with
  | nil =>
    simp [subAux, List.isEmpty_iff]
  | cons c t ih =>
    simp only [subAux, Bool.or_eq_true, ih, List.infix_cons_iff]
    constructor
    · rintro (h | h)
      · exact Or.inl ( List.isPrefixOf_iff_prefix.mp h)
      · exact Or.inr h
    · rintro (h | h)
      · exact Or.inl ( List.isPrefixOf_iff_prefix.mpr h)
      · exact Or.inr h

theorem strContainsSub_iff (s pat : String) :
    strContainsSub s pat = true ↔ pat.toList <:+: s.toList := by
  unfold strContainsSub; exact subAux_eq_true_iff _ _

theorem toList_append (a b : String) : (a ++ b).toList = a.toList ++ b.toList := by
  show (a ++ b).data = a.data ++ b.data
  exact String.data_append a b

/-- Substring containment is preserved when text is prepended. -/
theorem strContainsSub_append_right (a b pat : String)
    (h : strContainsSub b pat = true) : strContainsSub (a ++ b) pat = true := by
  rw [strContainsSub_iff] at h ⊢
  rw [toList_append]
  exact h.trans (List.suffix_append a.toList b.toList).isInfix

/-- Membership in the first-occurrence deduplication. -/
theorem mem_firstOccur {x : String} :
    ∀ (l seen : List String), x ∈ firstOccur seen l ↔ x ∈ l ∧ x ∉ seen := by
  intro l
  induction l with
  | nil => intro seen; simp [firstOccur]
  | cons y ys ih =>
    intro seen
    by_cases hy : y ∈ seen
    · rw [firstOccur, if_pos hy, ih]
      constructor
      · rintro ⟨hx, hs⟩; exact ⟨List.mem_cons_of_mem _ hx, hs⟩
      · rintro ⟨hx, hs⟩
        rcases List.mem_cons.mp hx with rfl | hx
        · exact absurd hy hs
        · exact ⟨hx, hs⟩
    · rw [firstOccur, if_neg hy]
      by_cases hxy : x = y
      · subst hxy
        simp [hy]
      · simp only [List.mem_cons, hxy, false_or]
        rw [ih]
        simp [List.mem_cons, hxy]

/-- The first-occurrence deduplication has no duplicates. -/
theorem nodup_firstOccur : ∀ (l seen : List String), (firstOccur seen l).Nodup := by
  intro l
  induction l with
  | nil => intro seen; simp [firstOccur]
  | cons y ys ih =>
    intro seen
    by_cases hy : y ∈ seen
    · rw [firstOccur, if_pos hy]; exact ih seen
    · rw [firstOccur, if_neg hy]
      refine List.nodup_cons.mpr ⟨?_, ih (y :: seen)⟩
      intro hmem
      exact ((mem_firstOccur ys (y :: seen)).mp hmem).2 (List.mem_cons_self y seen)

/-- First-occurrence order in the deduplicated list agrees with the order of
first occurrences in the original list. -/
theorem firstOccur_indexOf_lt {a b : String} :
    ∀ (l seen u₁ u₂ : List String), firstOccur seen l = u₁ ++ a :: u₂ → b ∈ u₂ →
      l.indexOf a < l.indexOf b := by
  intro l
  induction l with
  | nil =>
    intro seen u₁ u₂ h hb
    rw [firstOccur] at h
    exact absurd h.symm (List.append_ne_nil_of_right_ne_nil u₁ (List.cons_ne_nil a u₂))
  | cons y ys ih =>
    intro seen u₁ u₂ h hb
    have hb' : b ∈ firstOccur seen (y :: ys) := by
      rw [h]; exact List.mem_append_right u₁ (List.mem_cons_of_mem a hb)
    have ha' : a ∈ firstOccur seen (y :: ys) := by
      rw [h]; exact List.mem_append_right u₁ (List.mem_cons_self a u₂)
    by_cases hy : y ∈ seen
    · rw [firstOccur, if_pos hy] at h hb' ha'
      have hane : a ≠ y := by
        rintro rfl; exact ((mem_firstOccur ys seen).mp ha').2 hy
      have hbne : b ≠ y := by
        rintro rfl; exact ((mem_firstOccur ys seen).mp hb').2 hy
      rw [List.indexOf_cons_ne ys (Ne.symm hane), List.indexOf_cons_ne ys (Ne.symm hbne)]
      exact Nat.succ_lt_succ (ih seen u₁ u₂ h hb)
    · rw [firstOccur, if_neg hy] at h
      cases u₁ with
      | nil =>
        rw [List.nil_append] at h
        injection h with heq hu₂
        subst heq
        have hbm : b ∈ firstOccur (y :: seen) ys := by rw [hu₂]; exact hb
        have hbne : b ≠ y := by
          intro heq2
          refine ((mem_firstOccur ys (y :: seen)).mp hbm).2 ?_
          rw [heq2]; exact List.mem_cons_self y seen
        rw [List.indexOf_cons_self, List.indexOf_cons_ne ys (Ne.symm hbne)]
        exact Nat.succ_pos _
      | cons u₀ u₁' =>
        rw [List.cons_append] at h
        injection h with heq h2
        subst heq
        have ham : a ∈ firstOccur (y :: seen) ys := by
          rw [h2]; exact List.mem_append_right u₁' (List.mem_cons_self a u₂)
        have hbm : b ∈ firstOccur (y :: seen) ys := by
          rw [h2]; exact List.mem_append_right u₁' (List.mem_cons_of_mem a hb)
        have hane : a ≠ y := by
          intro heq2
          refine ((mem_firstOccur ys (y :: seen)).mp ham).2 ?_
          rw [heq2]; exact List.mem_cons_self y seen
        have hbne : b ≠ y := by
          intro heq2
          refine ((mem_firstOccur ys (y :: seen)).mp hbm).2 ?_
          rw [heq2]; exact List.mem_cons_self y seen
        rw [List.indexOf_cons_ne ys (Ne.symm hane), List.indexOf_cons_ne ys (Ne.symm hbne)]
        exact Nat.succ_lt_succ (ih (y :: seen) u₁' u₂ h2 hb)

/-- Spec-side characterization of the representative selection: the least index
minimizing a distance function over indices `0..n-1`. -/
def isLeastArgmin (f : ℕ → ℚ) (n i : ℕ) : Prop :=
  i < n ∧ (∀ j, j < n → f i ≤ f j) ∧ (∀ j, j < i → f i < f j)

theorem isLeastArgmin_unique {f : ℕ → ℚ} {n i j : ℕ}
    (hi : isLeastArgmin f n i) (hj : isLeastArgmin f n j) : i = j := by
  obtain ⟨hin, himin, hilt⟩ := hi
  obtain ⟨hjn, hjmin, hjlt⟩ := hj
  rcases lt_trichotomy i j with h | h | h
  · exact absurd (himin j hjn) (not_le_of_lt (hjlt i h))
  · exact h
  · exact absurd (hjmin i hin) (not_le_of_lt (hilt j h))

/-- Invariant of the representative-selection loop. -/
theorem argminGo_spec (mean : ℚ) :
    ∀ (l : List ℚ) (start bi : ℕ) (bd : ℚ),
      (argminGo mean l start (bi, some bd) = (bi, some bd) ∧
        ∀ k, k < l.length → bd ≤ |l.getD k 0 - mean|) ∨
      (∃ k, k < l.length ∧
        argminGo mean l start (bi, some bd) = (start + k, some (|l.getD k 0 - mean|)) ∧
        |l.getD k 0 - mean| < bd ∧
        (∀ j, j < l.length → |l.getD k 0 - mean| ≤ |l.getD j 0 - mean|) ∧
        (∀ j, j < k → |l.getD k 0 - mean| < |l.getD j 0 - mean|)) := by
  intro l
  induction l with
  | nil =>
    intro start bi bd
    left
    constructor
    · rfl
    · intro k hk; simp at hk
  | cons w rest ih =>
    intro start bi bd
    by_cases hupd : |w - mean| < bd
    · have hstep :
          argminGo mean (w :: rest) start (bi, some bd) =
            argminGo mean rest (start + 1) (start, some (|w - mean|)) := by
        simp [argminGo, hupd]
      rcases ih (start + 1) start (|w - mean|) with ⟨heq, hmin⟩ | ⟨k, hk, heq, hlt, hmin, hstrict⟩
      · right
        refine ⟨0, by simp, ?_, ?_, ?_, ?_⟩
        · rw [hstep, heq]; simp
        · simpa using hupd
        · intro j hj
          cases j with
          | zero => simp
          | succ j' =>
            simp only [List.getD_cons_succ, List.getD_cons_zero]
            exact hmin j' (by simpa using hj)
        · intro j hj; omega
      · right
        refine ⟨k + 1, by simpa using hk, ?_, ?_, ?_, ?_⟩
        · rw [hstep, heq]
          simp only [List.getD_cons_succ]
          congr 1
          omega
        · calc |rest.getD k 0 - mean| < |w - mean| := hlt
            _ < bd := hupd
        · intro j hj
          cases j with
          | zero =>
            simp only [List.getD_cons_succ, List.getD_cons_zero]
            exact le_of_lt hlt
          | succ j' =>
            simp only [List.getD_cons_succ]
            exact hmin j' (by simpa using hj)
        · intro j hj
          cases j with
          | zero =>
            simp only [List.getD_cons_succ, List.getD_cons_zero]
            exact hlt
          | succ j' =>
            simp only [List.getD_cons_succ]
            exact hstrict j' (by omega)
    · have hstep :
          argminGo mean (w :: rest) start (bi, some bd) =
            argminGo mean rest (start + 1) (bi, some bd) := by
        simp [argminGo, hupd]
      rcases ih (start + 1) bi bd with ⟨heq, hmin⟩ | ⟨k, hk, heq, hlt, hmin, hstrict⟩
      · left
        constructor
        · rw [hstep, heq]
        · intro k hkk
          cases k with
          | zero =>
            simp only [List.getD_cons_zero]
            exact le_of_not_lt hupd
          | succ k' =>
            simp only [List.getD_cons_succ]
            exact hmin k' (by simpa using hkk)
      · right
        refine ⟨k + 1, by simpa using hk, ?_, ?_, ?_, ?_⟩
        · rw [hstep, heq]
          simp only [List.getD_cons_succ]
          congr 1
          omega
        · simpa using hlt
        · intro j hj
          cases j with
          | zero =>
            simp only [List.getD_cons_succ, List.getD_cons_zero]
            exact le_of_lt (lt_of_lt_of_le hlt (le_of_not_lt hupd))
          | succ j' =>
            simp only [List.getD_cons_succ]
            exact hmin j' (by simpa using hj)
        · intro j hj
          cases j with
          | zero =>
            simp only [List.getD_cons_succ, List.getD_cons_zero]
            exact lt_of_lt_of_le hlt (le_of_not_lt hupd)
          | succ j' =>
            simp only [List.getD_cons_succ]
            exact hstrict j' (by omega)

/-- The selection loop returns the least index whose weighted score is closest
to the mean. -/
theorem argminDist_spec (mean : ℚ) (ws : List ℚ) (h : ws ≠ []) :
    isLeastArgmin (fun j => |ws.getD j 0 - mean|) ws.length (argminDist mean ws) := by
  cases ws with
  | nil => exact absurd rfl h
  | cons w rest =>
    have hstep :
        argminDist mean (w :: rest) =
          (argminGo mean rest 1 (0, some (|w - mean|))).1 := by
      simp [argminDist, argminGo]
    rcases argminGo_spec mean rest 1 0 (|w - mean|) with ⟨heq, hmin⟩ | ⟨k, hk, heq, hlt, hmin, hstrict⟩
    · rw [hstep, heq]
      refine ⟨by simp, ?_, ?_⟩
      · intro j hj
        cases j with
        | zero => simp
        | succ j' =>
          simp only [List.getD_cons_succ, List.getD_cons_zero]
          exact hmin j' (by simpa using hj)
      · intro j hj; omega
    · rw [hstep, heq]
      refine ⟨by simp; omega, ?_, ?_⟩
      · intro j hj
        have h1k : 1 + k = k + 1 := by omega
        simp only [h1k, List.getD_cons_succ]
        cases j with
        | zero =>
          simp only [List.getD_cons_zero]
          exact le_of_lt hlt
        | succ j' =>
          simp only [List.getD_cons_succ]
          exact hmin j' (by simpa using hj)
      · intro j hj
        have h1k : 1 + k = k + 1 := by omega
        simp only [h1k, List.getD_cons_succ]
        cases j with
        | zero =>
          simp only [List.getD_cons_zero]
          exact hlt
        | succ j' =>
          simp only [List.getD_cons_succ]
          exact hstrict j' (by omega)

/-- Invariant of the mode-selection loop. -/
theorem modeGo_spec (cats : List String) :
    ∀ (u : List String) (c₀ : String) (n₀ : ℕ),
      n₀ ≤ (modeGo cats u (c₀, n₀)).2 ∧
      (modeGo cats u (c₀, n₀) = (c₀, n₀) ∨
        ((modeGo cats u (c₀, n₀)).1 ∈ u ∧
         (modeGo cats u (c₀, n₀)).2 = cats.count (modeGo cats u (c₀, n₀)).1 ∧
         n₀ < (modeGo cats u (c₀, n₀)).2)) ∧
      (∀ x ∈ u, cats.count x ≤ (modeGo cats u (c₀, n₀)).2) ∧
      (modeGo cats u (c₀, n₀) = (c₀, n₀) ∨
        ∃ u₁ u₂, u = u₁ ++ (modeGo cats u (c₀, n₀)).1 :: u₂ ∧
          ∀ x ∈ u₁, cats.count x < (modeGo cats u (c₀, n₀)).2) := by
  intro u
  induction u with
  | nil =>
    intro c₀ n₀
    refine ⟨le_refl _, Or.inl rfl, ?_, Or.inl rfl⟩
    intro x hx; simp at hx
  | cons c rest ih =>
    intro c₀ n₀
    by_cases hupd : cats.count c > n₀
    · have hstep : modeGo cats (c :: rest) (c₀, n₀) = modeGo cats rest (c, cats.count c) := by
        simp [modeGo, hupd]
      obtain ⟨ih1, ih2, ih3, ih4⟩ := ih c (cats.count c)
      rw [hstep]
      refine ⟨le_trans (le_of_lt hupd) ih1, ?_, ?_, ?_⟩
      · rcases ih2 with heq | ⟨hmem, hcnt, hgt⟩
        · right
          rw [heq]
          exact ⟨List.mem_cons_self c rest, rfl, hupd⟩
        · right
          exact ⟨List.mem_cons_of_mem c hmem, hcnt, lt_trans hupd hgt⟩
      · intro x hx
        rcases List.mem_cons.mp hx with rfl | hx
        · exact ih1
        · exact ih3 x hx
      · rcases ih2 with heq2 | ⟨_, _, hgt⟩
        · right
          refine ⟨[], rest, ?_, ?_⟩
          · simp [heq2]
          · intro x hx; simp at hx
        · right
          rcases ih4 with heq | ⟨u₁, u₂, hsplit, hless⟩
          · rw [heq] at hgt; exact absurd hgt (lt_irrefl _)
          · refine ⟨c :: u₁, u₂, ?_, ?_⟩
            · rw [List.cons_append, ← hsplit]
            · intro x hx
              rcases List.mem_cons.mp hx with rfl | hx
              · exact hgt
              · exact hless x hx
    · have hstep : modeGo cats (c :: rest) (c₀, n₀) = modeGo cats rest (c₀, n₀) := by
        simp [modeGo, hupd]
      obtain ⟨ih1, ih2, ih3, ih4⟩ := ih c₀ n₀
      rw [hstep]
      refine ⟨ih1, ?_, ?_, ?_⟩
      · rcases ih2 with heq | ⟨hmem, hcnt, hgt⟩
        · exact Or.inl heq
        · exact Or.inr ⟨List.mem_cons_of_mem c hmem, hcnt, hgt⟩
      · intro x hx
        rcases List.mem_cons.mp hx with rfl | hx
        · exact le_trans (le_of_not_lt hupd) ih1
        · exact ih3 x hx
      · rcases ih4 with heq | ⟨u₁, u₂, hsplit, hless⟩
        · exact Or.inl heq
        · rcases ih2 with heq2 | ⟨_, _, hgt⟩
          · exact Or.inl heq2
          · right
            refine ⟨c :: u₁, u₂, ?_, ?_⟩
            · rw [List.cons_append, ← hsplit]
            · intro x hx
              rcases List.mem_cons.mp hx with rfl | hx
              · exact lt_of_le_of_lt (le_of_not_lt hupd) hgt
              · exact hless x hx

/-- The mode selection returns a category of maximal count whose first
occurrence comes earliest among the maximal ones. -/
theorem modeCategory_spec (cats : List String) (h : cats ≠ []) :
    modeCategory cats ∈ cats ∧
    (∀ x ∈ cats, cats.count x ≤ cats.count (modeCategory cats)) ∧
    (∀ x ∈ cats, cats.count x = cats.count (modeCategory cats) →
      cats.indexOf (modeCategory cats) ≤ cats.indexOf x) := by
  obtain ⟨ih1, ih2, ih3, ih4⟩ := modeGo_spec cats (firstOccur [] cats) "none" 0
  have hmem_uniq : ∀ x, x ∈ cats → x ∈ firstOccur [] cats := by
    intro x hx
    exact (mem_firstOccur cats []).mpr ⟨hx, by simp⟩
  have hne : modeGo cats (firstOccur [] cats) ("none", 0) ≠ ("none", 0) := by
    intro heq
    obtain ⟨y, hy⟩ := List.exists_mem_of_ne_nil cats h
    have := ih3 y (hmem_uniq y hy)
    rw [heq] at this
    simp only at this
    exact absurd (List.count_pos_iff.mpr hy) (by omega)
  rcases ih2 with heq | ⟨hmem, hcnt, _⟩
  · exact absurd heq hne
  rcases ih4 with heq | ⟨u₁, u₂, hsplit, hless⟩
  · exact absurd heq hne
  have hmc : modeCategory cats = (modeGo cats (firstOccur [] cats) ("none", 0)).1 := rfl
  have hmode_mem : modeCategory cats ∈ cats := by
    rw [hmc]
    exact ((mem_firstOccur cats []).mp hmem).1
  refine ⟨hmode_mem, ?_, ?_⟩
  · intro x hx
    rw [hmc, ← hcnt]
    exact ih3 x (hmem_uniq x hx)
  · intro x hx hxcnt
    rw [hmc] at hxcnt ⊢
    by_cases hxeq : x = (modeGo cats (firstOccur [] cats) ("none", 0)).1
    · rw [hxeq]
    have hxu : x ∈ firstOccur [] cats := hmem_uniq x hx
    rw [hsplit] at hxu
    rcases List.mem_append.mp hxu with hx1 | hx2
    · exfalso
      have hc := hless x hx1
      rw [hcnt, hxcnt] at hc
      exact lt_irrefl _ hc
    · rcases List.mem_cons.mp hx2 with heq2 | hx2
      · exact absurd heq2 hxeq
      · exact le_of_lt (firstOccur_indexOf_lt cats [] u₁ u₂ hsplit hx2)

/-- With a deterministic spec the scorer returns exactly this record. -/
theorem scoreDeterministic_eq (task : EvalTask) (result : TaskResult)
    (check : DeterministicCheck) (hdet : task.deterministic = some check) :
    scoreDeterministic task result = some {
      skillActivated := (activationPolicy check task.expectedSkillLoad
        (if result.isError then none else activationEvidence result)).1
      skillName := (if result.isError then none else activationEvidence result)
      markerFound := (markerCheck check result.output).1
      expectedToolsCalled := (expectedToolsCheck check (result.toolCalls.map (·.tool))).1
      unexpectedToolsCalled := (forbiddenToolsCheck check (result.toolCalls.map (·.tool))).1
      passed := overallPass check
        (activationPolicy check task.expectedSkillLoad
          (if result.isError then none else activationEvidence result)).1
        (markerCheck check result.output).1
        (expectedToolsCheck check (result.toolCalls.map (·.tool))).1
        (forbiddenToolsCheck check (result.toolCalls.map (·.tool))).1
      details :=
        (if result.isError then ["Task errored — treating as no activation"] else []) ++
        (activationPolicy check task.expectedSkillLoad
          (if result.isError then none else activationEvidence result)).2 ++
        (markerCheck check result.output).2 ++
        (expectedToolsCheck check (result.toolCalls.map (·.tool))).2 ++
        (forbiddenToolsCheck check (result.toolCalls.map (·.tool))).2 } := by
  simp [scoreDeterministic, hdet]

/-- When a deterministic result is present, merged discovery comes from its
activation flag through the negative-test inversion, whatever the judge says. -/
theorem mergeScores_discovery_det (tid : String) (det : DeterministicResult)
    (judge : Option JudgeScore) (w : WeightMap) (neg : Bool) :
    (mergeScores tid (some det) judge w neg).discovery =
      computeDiscovery neg det.skillActivated := by
  cases judge <;> rfl

/-- When a deterministic result with an activation recorded carries a detail
tagged "false positive", the merged failure category is `false_positive`. -/
theorem mergeScores_false_positive (tid : String) (det : DeterministicResult)
    (judge : Option JudgeScore) (w : WeightMap) (neg : Bool)
    (hact : det.skillActivated = true)
    (hdetail : det.details.any (fun d => strContainsSub d "false positive") = true) :
    (mergeScores tid (some det) judge w neg).failureCategory = "false_positive" := by
  cases judge with
  | none => simp [mergeScores, hdetail]
  | some j => simp [mergeScores, hact, hdetail]

-- ============================================
-- Claim C9
-- ============================================

/-- C9: aggregating exactly one run is an identity transform — both aggregation
operations return the sole inner list unchanged (the trial-count tag is the
`numRuns` value the caller threads to the report alongside these outputs). -/
theorem c9_single_run_identity (results : List TaskResult)
    (scores : List CombinedScore) (other : List (List CombinedScore)) :
    aggregateResults [results] other = results ∧
    aggregateScores [scores] = scores := by
  constructor
  · simp [aggregateResults]
  · simp [aggregateScores]

-- ============================================
-- Claim C10
-- ============================================

/-- C10: with zero runs both aggregation operations are total and return the
empty list. -/
theorem c10_zero_runs_empty (other : List (List CombinedScore)) :
    aggregateResults [] other = [] ∧
    aggregateScores ([] : List (List CombinedScore)) = [] := by
  constructor
  · simp [aggregateResults]
  · simp [aggregateScores]

-- ============================================
-- Claim C1
-- ============================================

/-- Errored trial of a negative test whose deterministic spec expects no
activation: input of the C1 counterexample. -/
def c1xTask : EvalTask :=
  { id := "c1", prompt := "p", expectedSkillLoad := "none", criteria := [],
    goldenChecklist := [],
    deterministic := some { expectSkillActivation := false, expectMarker := none,
                            expectToolCalls := none, expectNoToolCalls := none } }

def c1xTrial : TaskResult :=
  { taskId := "c1", prompt := "p", output := "", durationMs := 0, numTurns := 0,
    costUsd := 0, skillLoads := [], toolCalls := [], isError := true,
    errorMessage := "boom" }

/-- C1 counterexample: for this errored trial a deterministic result is present
and the merged score has discovery 1, adherence 5, outputQuality 5, weighted
score 1 and failure category "none" — not the fixed agent_error score the
claim asserts for every errored trial. -/
theorem c1_counterexample :
    c1xTrial.isError = true ∧
    (scoreDeterministic c1xTask c1xTrial).isSome = true ∧
    ((mergeScores c1xTask.id (scoreDeterministic c1xTask c1xTrial) none
        defaultWeights (c1xTask.expectedSkillLoad == "none")).discovery = 1 ∧
     (mergeScores c1xTask.id (scoreDeterministic c1xTask c1xTrial) none
        defaultWeights (c1xTask.expectedSkillLoad == "none")).adherence = 5 ∧
     (mergeScores c1xTask.id (scoreDeterministic c1xTask c1xTrial) none
        defaultWeights (c1xTask.expectedSkillLoad == "none")).weightedScore = 1 ∧
     (mergeScores c1xTask.id (scoreDeterministic c1xTask c1xTrial) none
        defaultWeights (c1xTask.expectedSkillLoad == "none")).failureCategory = "none") := by
  have hdet : scoreDeterministic c1xTask c1xTrial = some
      { skillActivated := false, skillName := none, markerFound := none,
        expectedToolsCalled := none, unexpectedToolsCalled := none, passed := true,
        details := ["Task errored — treating as no activation",
                    "Correctly did not activate any skill"] } := by decide
  have hneg : (c1xTask.expectedSkillLoad == "none") = true := rfl
  refine ⟨rfl, by rw [hdet]; rfl, ?_, ?_, ?_, ?_⟩
  · rw [hdet]; decide
  · rw [hdet]; decide
  · rw [hdet, hneg]
    norm_num [mergeScores, computeDiscovery, defaultWeights]
  · rw [hdet]; decide

/-- C1 (amended): for every errored trial, whenever no deterministic result
enters the merge — the judge assessment alone, coming from `judgeResult` on the
errored trial, or neither evaluator — the merged score is the fixed sentinel:
discovery 0, adherence 1, outputQuality 1, weightedScore 0 and failure
category agent_error.  (With a deterministic result present the merge instead
treats the errored trial as "no activation" under the ordinary rules, as the
counterexample shows.) -/
theorem c1_error_merge (task : EvalTask) (result : TaskResult) (call : ModelCall)
    (w : WeightMap) (neg : Bool) (judge : Option JudgeScore)
    (herr : result.isError = true)
    (hj : judge = none ∨ judge = some (judgeResult task result call)) :
    (mergeScores task.id none judge w neg).discovery = 0 ∧
    (mergeScores task.id none judge w neg).adherence = 1 ∧
    (mergeScores task.id none judge w neg).outputQuality = 1 ∧
    (mergeScores task.id none judge w neg).weightedScore = 0 ∧
    (mergeScores task.id none judge w neg).failureCategory = "agent_error" := by
  rcases hj with rfl | rfl
  · exact ⟨rfl, rfl, rfl, rfl, rfl⟩
  · simp [mergeScores, judgeResult, herr]

def c1wTask : EvalTask :=
  { id := "c1w", prompt := "p", expectedSkillLoad := "greeting", criteria := [],
    goldenChecklist := [], deterministic := none }

def c1wTrial : TaskResult :=
  { taskId := "c1w", prompt := "p", output := "", durationMs := 0, numTurns := 0,
    costUsd := 0, skillLoads := [], toolCalls := [], isError := true,
    errorMessage := "crash" }

/-- C1 witness: the amended theorem applied to a concrete errored trial scored
by the judge alone. -/
theorem c1_error_merge_witness :
    c1wTrial.isError = true ∧
    ((mergeScores c1wTask.id none (some (judgeResult c1wTask c1wTrial
        (.failure "x"))) defaultWeights false).discovery = 0 ∧
     (mergeScores c1wTask.id none (some (judgeResult c1wTask c1wTrial
        (.failure "x"))) defaultWeights false).adherence = 1 ∧
     (mergeScores c1wTask.id none (some (judgeResult c1wTask c1wTrial
        (.failure "x"))) defaultWeights false).outputQuality = 1 ∧
     (mergeScores c1wTask.id none (some (judgeResult c1wTask c1wTrial
        (.failure "x"))) defaultWeights false).weightedScore = 0 ∧
     (mergeScores c1wTask.id none (some (judgeResult c1wTask c1wTrial
        (.failure "x"))) defaultWeights false).failureCategory = "agent_error") :=
  ⟨rfl, c1_error_merge c1wTask c1wTrial (.failure "x") defaultWeights false
    (some (judgeResult c1wTask c1wTrial (.failure "x"))) rfl (Or.inr rfl)⟩

-- ============================================
-- Claim C4
-- ============================================

/-- Negative test whose trial records no activation: input of the C4
counterexample. -/
def c4xTask : EvalTask :=
  { id := "c4", prompt := "p", expectedSkillLoad := "none", criteria := [],
    goldenChecklist := [], deterministic := none }

def c4xTrial : TaskResult :=
  { taskId := "c4", prompt := "p", output := "done", durationMs := 0, numTurns := 0,
    costUsd := 0, skillLoads := [], toolCalls := [], isError := false,
    errorMessage := "" }

/-- C4 counterexample: on a negative test whose trial contains no activation at
all, the heuristic fallback returns discovery 0 and category discovery_failure
— not the discovery 1 / none the claim asserts for negative tests. -/
theorem c4_counterexample :
    c4xTask.expectedSkillLoad = "none" ∧
    c4xTrial.skillLoads = [] ∧
    (judgeResult c4xTask c4xTrial (.failure "network down")).discovery = 0 ∧
    (judgeResult c4xTask c4xTrial (.failure "network down")).failureCategory =
      "discovery_failure" := by
  refine ⟨rfl, rfl, ?_, ?_⟩ <;> decide

/-- C4 (amended): when the model call fails on a non-errored trial, the judge
returns the heuristic fallback with discovery 1 iff `skillLoads` contains the
expected capability name literally — with no special case for negative tests
(for `expectedCapability = "none"` it looks for the literal string "none") —
adherence = outputQuality = 3, weightedScore = 1/2, failure category
discovery_failure iff discovery is 0 else none, and a reasoning line naming
the heuristic and the failure cause. -/
theorem c4_heuristic_fallback (task : EvalTask) (result : TaskResult) (msg : String)
    (herr : result.isError = false) :
    (judgeResult task result (.failure msg)).discovery =
      (if result.skillLoads.contains task.expectedSkillLoad then 1 else 0) ∧
    (judgeResult task result (.failure msg)).adherence = 3 ∧
    (judgeResult task result (.failure msg)).outputQuality = 3 ∧
    (judgeResult task result (.failure msg)).weightedScore = 1/2 ∧
    ((judgeResult task result (.failure msg)).failureCategory =
      if result.skillLoads.contains task.expectedSkillLoad then "none"
      else "discovery_failure") ∧
    (judgeResult task result (.failure msg)).reasoning =
      "Heuristic scoring (judge error: " ++ msg ++ ")" := by
  cases hcon : result.skillLoads.contains task.expectedSkillLoad <;>
    simp [judgeResult, herr, hcon] <;> simpa using hcon

def c4wTask : EvalTask :=
  { id := "c4w", prompt := "p", expectedSkillLoad := "greeting", criteria := [],
    goldenChecklist := [], deterministic := none }

def c4wTrial : TaskResult :=
  { taskId := "c4w", prompt := "p", output := "hi", durationMs := 0, numTurns := 0,
    costUsd := 0, skillLoads := ["greeting"], toolCalls := [], isError := false,
    errorMessage := "" }

/-- C4 witness: the amended theorem applied to a concrete failed call. -/
theorem c4_heuristic_fallback_witness :
    c4wTrial.isError = false ∧
    ((judgeResult c4wTask c4wTrial (.failure "offline")).discovery =
      (if c4wTrial.skillLoads.contains c4wTask.expectedSkillLoad then 1 else 0) ∧
    (judgeResult c4wTask c4wTrial (.failure "offline")).adherence = 3 ∧
    (judgeResult c4wTask c4wTrial (.failure "offline")).outputQuality = 3 ∧
    (judgeResult c4wTask c4wTrial (.failure "offline")).weightedScore = 1/2 ∧
    ((judgeResult c4wTask c4wTrial (.failure "offline")).failureCategory =
      if c4wTrial.skillLoads.contains c4wTask.expectedSkillLoad then "none"
      else "discovery_failure") ∧
    (judgeResult c4wTask c4wTrial (.failure "offline")).reasoning =
      "Heuristic scoring (judge error: " ++ "offline" ++ ")") :=
  ⟨rfl, c4_heuristic_fallback c4wTask c4wTrial "offline" rfl⟩

-- ============================================
-- Claim C8
-- ============================================

/-- A model reply carrying a failure category outside the closed enumeration. -/
def c8xData : JudgeResponseData :=
  { discovery := some 1, adherence := some 4, output_quality := some 4,
    failure_category := some "total_nonsense", reasoning := some "r" }

/-- C8 counterexample: an unrecognized failure_category string in the model
reply is stored verbatim by the parsing step, not coerced into the closed
enumeration. -/
theorem c8_counterexample :
    (parseJudgeResponse (.ok c8xData) "t" defaultWeights).failureCategory =
      "total_nonsense" ∧
    "total_nonsense" ∉ validFailureCategories := by
  exact ⟨rfl, by decide⟩

/-- C8 (amended): the parsing step takes the failure_category string of the reply
verbatim whenever it is a nonempty string, and falls back to "none" when the
field is absent or empty; unrecognized strings are stored as-is, with no
coercion into the closed enumeration. -/
theorem c8_category_passthrough (data : JudgeResponseData) (tid : String)
    (w : WeightMap) :
    (∀ s, data.failure_category = some s → s ≠ "" →
      (parseJudgeResponse (.ok data) tid w).failureCategory = s) ∧
    ((data.failure_category = none ∨ data.failure_category = some "") →
      (parseJudgeResponse (.ok data) tid w).failureCategory = "none") := by
  constructor
  · intro s hs hne
    simp [parseJudgeResponse, strOr, hs, hne]
  · rintro (hs | hs) <;> simp [parseJudgeResponse, strOr, hs]

/-- A model reply with another unrecognized category, for the C8 witness. -/
def c8wData : JudgeResponseData :=
  { discovery := some 1, adherence := some 3, output_quality := some 3,
    failure_category := some "weird_cat", reasoning := some "r" }

/-- C8 witness: the amended theorem applied to a concrete unrecognized
category. -/
theorem c8_category_passthrough_witness :
    (parseJudgeResponse (.ok c8wData) "w" defaultWeights).failureCategory =
      "weird_cat" :=
  (c8_category_passthrough c8wData "w" defaultWeights).1 "weird_cat" rfl (by decide)

-- ============================================
-- Claim C7
-- ============================================

/-- Bounds for the discovery value produced by the merge. -/
theorem computeDiscovery_bounds (neg a : Bool) :
    0 ≤ computeDiscovery neg a ∧ computeDiscovery neg a ≤ 1 := by
  cases neg <;> cases a <;> norm_num [computeDiscovery]

/-- The weighted formula stays in [0,1] for nonnegative weights summing to 1,
discovery in [0,1] and grades in [1,5]. -/
theorem weightedFormula_bounds (wd wa wo d a o : ℚ)
    (hd0 : 0 ≤ wd) (ha0 : 0 ≤ wa) (ho0 : 0 ≤ wo) (hsum : wd + wa + wo = 1)
    (hd1 : 0 ≤ d) (hd2 : d ≤ 1) (ha1 : 1 ≤ a) (ha2 : a ≤ 5)
    (ho1 : 1 ≤ o) (ho2 : o ≤ 5) :
    0 ≤ wd * d + wa * ((a - 1) / 4) + wo * ((o - 1) / 4) ∧
    wd * d + wa * ((a - 1) / 4) + wo * ((o - 1) / 4) ≤ 1 := by
  constructor
  · have t1 : 0 ≤ wd * d := mul_nonneg hd0 hd1
    have t2 : 0 ≤ wa * ((a - 1) / 4) := mul_nonneg ha0 (by linarith)
    have t3 : 0 ≤ wo * ((o - 1) / 4) := mul_nonneg ho0 (by linarith)
    linarith
  · have t1 : wd * d ≤ wd := mul_le_of_le_one_right hd0 hd2
    have t2 : wa * ((a - 1) / 4) ≤ wa := mul_le_of_le_one_right ha0 (by linarith)
    have t3 : wo * ((o - 1) / 4) ≤ wo := mul_le_of_le_one_right ho0 (by linarith)
    linarith

def c7xDet : DeterministicResult :=
  { skillActivated := true, skillName := some "g", markerFound := none,
    expectedToolsCalled := none, unexpectedToolsCalled := none, passed := false,
    details := [] }

def c7xWeights : WeightMap :=
  { discovery := some (-1), adherence := some 2, output := some 0 }

/-- C7 counterexample: weights summing to 1 are not enough — with a negative
discovery weight the merged weighted score is -1, outside [0,1], even though
discovery is 1 and adherence and outputQuality are 1. -/
theorem c7_counterexample :
    (-1 : ℚ) + 2 + 0 = 1 ∧
    (mergeScores "t" (some c7xDet) none c7xWeights false).discovery = 1 ∧
    (mergeScores "t" (some c7xDet) none c7xWeights false).adherence = 1 ∧
    (mergeScores "t" (some c7xDet) none c7xWeights false).outputQuality = 1 ∧
    (mergeScores "t" (some c7xDet) none c7xWeights false).weightedScore = -1 := by
  refine ⟨by norm_num, ?_, ?_, ?_, ?_⟩
  · decide
  · decide
  · decide
  · norm_num [mergeScores, computeDiscovery, c7xDet, c7xWeights]

/-- C7 (amended): for every merge in which a deterministic result is present
(the formula sites of the source), with nonnegative weights summing to 1 and,
when a judge is present, its adherence and outputQuality in [1,5], the merged
weightedScore equals the weighted formula and lies in [0,1].  (Judge-only
merges copy the weightedScore of the judge verbatim instead of recomputing it.) -/
theorem c7_weighted_score (tid : String) (det : DeterministicResult)
    (judge : Option JudgeScore) (w : WeightMap) (neg : Bool) (wd wa wo : ℚ)
    (hwd : w.discovery = some wd) (hwa : w.adherence = some wa)
    (hwo : w.output = some wo)
    (hd0 : 0 ≤ wd) (ha0 : 0 ≤ wa) (ho0 : 0 ≤ wo) (hsum : wd + wa + wo = 1)
    (hj : ∀ j ∈ judge, (1 ≤ j.adherence ∧ j.adherence ≤ 5) ∧
      (1 ≤ j.outputQuality ∧ j.outputQuality ≤ 5)) :
    (mergeScores tid (some det) judge w neg).weightedScore =
      wd * (mergeScores tid (some det) judge w neg).discovery +
      wa * (((mergeScores tid (some det) judge w neg).adherence - 1) / 4) +
      wo * (((mergeScores tid (some det) judge w neg).outputQuality - 1) / 4) ∧
    0 ≤ (mergeScores tid (some det) judge w neg).weightedScore ∧
    (mergeScores tid (some det) judge w neg).weightedScore ≤ 1 := by
  obtain ⟨hdb1, hdb2⟩ := computeDiscovery_bounds neg det.skillActivated
  cases judge with
  | none =>
    refine ⟨by simp [mergeScores, hwd, hwa, hwo], ?_⟩
    have hform :
        (mergeScores tid (some det) none w neg).weightedScore =
          wd * computeDiscovery neg det.skillActivated +
          wa * (((if det.passed then (5 : ℚ) else 1) - 1) / 4) +
          wo * (((if det.passed then (5 : ℚ) else 1) - 1) / 4) := by
      simp [mergeScores, hwd, hwa, hwo]
    rw [hform]
    cases det.passed <;>
      exact weightedFormula_bounds wd wa wo _ _ _ hd0 ha0 ho0 hsum hdb1 hdb2
        (by norm_num) (by norm_num) (by norm_num) (by norm_num)
  | some j =>
    obtain ⟨⟨ha1, ha2⟩, ⟨ho1, ho2⟩⟩ := hj j (by simp)
    refine ⟨by simp [mergeScores, hwd, hwa, hwo], ?_⟩
    have hform :
        (mergeScores tid (some det) (some j) w neg).weightedScore =
          wd * computeDiscovery neg det.skillActivated +
          wa * ((j.adherence - 1) / 4) +
          wo * ((j.outputQuality - 1) / 4) := by
      simp [mergeScores, hwd, hwa, hwo]
    rw [hform]
    exact weightedFormula_bounds wd wa wo _ _ _ hd0 ha0 ho0 hsum hdb1 hdb2
      ha1 ha2 ho1 ho2

def c7wDet : DeterministicResult :=
  { skillActivated := true, skillName := some "g", markerFound := none,
    expectedToolsCalled := none, unexpectedToolsCalled := none, passed := true,
    details := [] }

/-- C7 witness: the amended theorem applied at the default weights. -/
theorem c7_weighted_score_witness :
    ((3 : ℚ)/10 + 2/5 + 3/10 = 1) ∧
    ((mergeScores "w7" (some c7wDet) none defaultWeights false).weightedScore =
      (3 : ℚ)/10 * (mergeScores "w7" (some c7wDet) none defaultWeights false).discovery +
      2/5 * (((mergeScores "w7" (some c7wDet) none defaultWeights false).adherence - 1) / 4) +
      3/10 * (((mergeScores "w7" (some c7wDet) none defaultWeights false).outputQuality - 1) / 4) ∧
    0 ≤ (mergeScores "w7" (some c7wDet) none defaultWeights false).weightedScore ∧
    (mergeScores "w7" (some c7wDet) none defaultWeights false).weightedScore ≤ 1) :=
  ⟨by norm_num,
   c7_weighted_score "w7" c7wDet none defaultWeights false (3/10) (2/5) (3/10)
     rfl rfl rfl (by norm_num) (by norm_num) (by norm_num) (by norm_num)
     (by simp)⟩

-- ============================================
-- Claim C2
-- ============================================

/-- Positive-test task whose deterministic spec does not expect activation:
input of the C2 counterexample. -/
def c2xTask : EvalTask :=
  { id := "c2", prompt := "p", expectedSkillLoad := "greeting", criteria := [],
    goldenChecklist := [],
    deterministic := some { expectSkillActivation := false, expectMarker := none,
                            expectToolCalls := none, expectNoToolCalls := none } }

def c2xTrial : TaskResult :=
  { taskId := "c2", prompt := "p", output := "", durationMs := 0, numTurns := 0,
    costUsd := 0, skillLoads := [],
    toolCalls := [{ tool := "Skill", toolUseId := "u", timestamp := 0,
                    input := some { skill := some "other", skill_name := none,
                                    name := none } }],
    isError := false, errorMessage := "" }

/-- C2 counterexample: a task expecting capability "greeting" whose
deterministic spec has expectSkillActivation = false; the trial activates
"other", yet the merged discovery is 1 — the claimed iff fails for such
positive-test tasks. -/
theorem c2_counterexample :
    c2xTask.expectedSkillLoad = "greeting" ∧
    activationEvidence c2xTrial = some "other" ∧
    (mergeScores c2xTask.id (scoreDeterministic c2xTask c2xTrial) none
        defaultWeights (c2xTask.expectedSkillLoad == "none")).discovery = 1 := by
  refine ⟨rfl, ?_, ?_⟩ <;> decide

/-- C2 (amended): for a task whose expected capability is neither "none" nor
empty and whose deterministic spec has expectSkillActivation = true, the
merged discovery is 1 iff the trial is not errored and the capability name
extracted from its evidence (first recognized skill tool call, else the first
skillLoads entry) exactly equals the expected capability; a different name, or
none, yields 0. -/
theorem c2_positive_discovery (task : EvalTask) (result : TaskResult)
    (judge : Option JudgeScore) (w : WeightMap) (check : DeterministicCheck)
    (hdet : task.deterministic = some check)
    (hact : check.expectSkillActivation = true)
    (hn1 : task.expectedSkillLoad ≠ "none") (hn2 : task.expectedSkillLoad ≠ "") :
    (mergeScores task.id (scoreDeterministic task result) judge w
        (task.expectedSkillLoad == "none")).discovery = 1 ↔
      (result.isError = false ∧
        activationEvidence result = some task.expectedSkillLoad) := by
  have hneg : (task.expectedSkillLoad == "none") = false := by
    simp [hn1]
  rw [scoreDeterministic_eq task result check hdet, mergeScores_discovery_det, hneg]
  cases herr : result.isError with
  | true => simp [herr, activationPolicy, hact, computeDiscovery]
  | false =>
    cases hev : activationEvidence result with
    | none => simp [herr, hev, activationPolicy, hact, computeDiscovery]
    | some name =>
      have hcond :
          (task.expectedSkillLoad != "" && task.expectedSkillLoad != "none") = true := by
        simp [hn1, hn2]
      by_cases hname : name = task.expectedSkillLoad
      · simp [herr, hev, activationPolicy, hact, hcond, hname, computeDiscovery]
      · simp [herr, hev, activationPolicy, hact, hcond, hname, computeDiscovery]

def c2wCheck : DeterministicCheck :=
  { expectSkillActivation := true, expectMarker := none,
    expectToolCalls := none, expectNoToolCalls := none }

def c2wTask : EvalTask :=
  { id := "c2w", prompt := "p", expectedSkillLoad := "greeting", criteria := [],
    goldenChecklist := [], deterministic := some c2wCheck }

def c2wTrial : TaskResult :=
  { taskId := "c2w", prompt := "p", output := "", durationMs := 0, numTurns := 0,
    costUsd := 0, skillLoads := ["greeting"], toolCalls := [], isError := false,
    errorMessage := "" }

/-- C2 witness: the amended theorem applied to a concrete matching activation. -/
theorem c2_positive_discovery_witness :
    c2wTask.expectedSkillLoad ≠ "none" ∧
    ((mergeScores c2wTask.id (scoreDeterministic c2wTask c2wTrial) none
        defaultWeights (c2wTask.expectedSkillLoad == "none")).discovery = 1 ↔
      (c2wTrial.isError = false ∧
        activationEvidence c2wTrial = some c2wTask.expectedSkillLoad)) :=
  ⟨by decide, c2_positive_discovery c2wTask c2wTrial none defaultWeights c2wCheck
    rfl rfl (by decide) (by decide)⟩

-- ============================================
-- Claim C3
-- ============================================

/-- The unexpected-activation detail always carries the "false positive" tag. -/
theorem details_contain_false_positive (name : String) :
    strContainsSub ("Unexpected skill activation: " ++ name ++ " (false positive)")
      "false positive" = true :=
  strContainsSub_append_right _ _ _ (by decide)

/-- Negative-test task whose deterministic spec (like the parser default)
expects activation: input of the C3 counterexample. -/
def c3xTask : EvalTask :=
  { id := "c3", prompt := "p", expectedSkillLoad := "none", criteria := [],
    goldenChecklist := [],
    deterministic := some { expectSkillActivation := true, expectMarker := none,
                            expectToolCalls := none, expectNoToolCalls := none } }

def c3xTrial : TaskResult :=
  { taskId := "c3", prompt := "p", output := "", durationMs := 0, numTurns := 0,
    costUsd := 0, skillLoads := ["greeting"], toolCalls := [], isError := false,
    errorMessage := "" }

/-- C3 counterexample: a negative test whose deterministic spec has
expectSkillActivation = true (the parser default); an activation is recorded
and discovery is 0, but the merged failure category is "none", not the
"false_positive" the claim asserts. -/
theorem c3_counterexample :
    c3xTask.expectedSkillLoad = "none" ∧
    activationEvidence c3xTrial = some "greeting" ∧
    (mergeScores c3xTask.id (scoreDeterministic c3xTask c3xTrial) none
        defaultWeights (c3xTask.expectedSkillLoad == "none")).discovery = 0 ∧
    (mergeScores c3xTask.id (scoreDeterministic c3xTask c3xTrial) none
        defaultWeights (c3xTask.expectedSkillLoad == "none")).failureCategory =
      "none" := by
  refine ⟨rfl, ?_, ?_, ?_⟩ <;> decide

/-- C3 (amended): for a negative-test task (expected capability "none") whose
deterministic spec has expectSkillActivation = false, merged discovery is 1
iff the trial is errored (the code then treats it as having no activation,
whatever its evidence) or no activation is recorded; and on a non-errored
trial with a recorded activation, discovery is 0 and the merged failure
category is "false_positive". -/
theorem c3_negative_discovery (task : EvalTask) (result : TaskResult)
    (judge : Option JudgeScore) (w : WeightMap) (check : DeterministicCheck)
    (hdet : task.deterministic = some check)
    (hact : check.expectSkillActivation = false)
    (hneg : task.expectedSkillLoad = "none") :
    ((mergeScores task.id (scoreDeterministic task result) judge w
        (task.expectedSkillLoad == "none")).discovery = 1 ↔
      (result.isError = true ∨ activationEvidence result = none)) ∧
    (result.isError = false → ∀ name, activationEvidence result = some name →
      (mergeScores task.id (scoreDeterministic task result) judge w
        (task.expectedSkillLoad == "none")).discovery = 0 ∧
      (mergeScores task.id (scoreDeterministic task result) judge w
        (task.expectedSkillLoad == "none")).failureCategory = "false_positive") := by
  have hbeq : (task.expectedSkillLoad == "none") = true := by
    simp [hneg]
  constructor
  · rw [scoreDeterministic_eq task result check hdet, mergeScores_discovery_det, hbeq]
    cases herr : result.isError with
    | true => simp [herr, activationPolicy, hact, computeDiscovery]
    | false =>
      cases hev : activationEvidence result with
      | none => simp [herr, hev, activationPolicy, hact, computeDiscovery]
      | some name => simp [herr, hev, activationPolicy, hact, computeDiscovery]
  · intro herr name hev
    rw [scoreDeterministic_eq task result check hdet]
    constructor
    · rw [mergeScores_discovery_det, hbeq]
      simp [herr, hev, activationPolicy, hact, computeDiscovery]
    · apply mergeScores_false_positive
      · simp [herr, hev, activationPolicy, hact]
      · rw [List.any_eq_true]
        refine ⟨"Unexpected skill activation: " ++ name ++ " (false positive)",
          ?_, details_contain_false_positive name⟩
        simp [herr, hev, activationPolicy, hact]

def c3wCheck : DeterministicCheck :=
  { expectSkillActivation := false, expectMarker := none,
    expectToolCalls := none, expectNoToolCalls := none }

def c3wTask : EvalTask :=
  { id := "c3w", prompt := "p", expectedSkillLoad := "none", criteria := [],
    goldenChecklist := [], deterministic := some c3wCheck }

def c3wTrial : TaskResult :=
  { taskId := "c3w", prompt := "p", output := "", durationMs := 0, numTurns := 0,
    costUsd := 0, skillLoads := ["hello"], toolCalls := [], isError := false,
    errorMessage := "" }

/-- C3 witness: the amended theorem applied to a concrete unexpected
activation on a negative test. -/
theorem c3_negative_discovery_witness :
    c3wTask.expectedSkillLoad = "none" ∧
    (((mergeScores c3wTask.id (scoreDeterministic c3wTask c3wTrial) none
        defaultWeights (c3wTask.expectedSkillLoad == "none")).discovery = 1 ↔
      (c3wTrial.isError = true ∨ activationEvidence c3wTrial = none)) ∧
    (c3wTrial.isError = false → ∀ name, activationEvidence c3wTrial = some name →
      (mergeScores c3wTask.id (scoreDeterministic c3wTask c3wTrial) none
        defaultWeights (c3wTask.expectedSkillLoad == "none")).discovery = 0 ∧
      (mergeScores c3wTask.id (scoreDeterministic c3wTask c3wTrial) none
        defaultWeights (c3wTask.expectedSkillLoad == "none")).failureCategory =
        "false_positive")) :=
  ⟨rfl, c3_negative_discovery c3wTask c3wTrial none defaultWeights c3wCheck
    rfl rfl rfl⟩

/-- Element access into a mapped range. -/
theorem getD_range_map {α : Type} (f : ℕ → α) (T t : ℕ) (ht : t < T) (d : α) :
    ((List.range T).map f).getD t d = f t := by
  rw [List.getD_eq_getElem?_getD, List.getElem?_map, List.getElem?_range ht]
  rfl

/-- Column `t` of the outer run list: the `r[t]` reads of the aggregator
(out-of-range reads give the default record; the claims only use this on
rectangular inputs). -/
def runsAt (rss : List (List TaskResult)) (t : ℕ) : List TaskResult :=
  rss.map (fun r => r.getD t default)

/-- Column `t` of the outer score list. -/
def scoresAt (sss : List (List CombinedScore)) (t : ℕ) : List CombinedScore :=
  sss.map (fun s => s.getD t default)

/-- The per-task weighted-score column and its mean, as computed by
`aggregateResults`. -/
def wsAt (sss : List (List CombinedScore)) (t : ℕ) : List ℚ :=
  (scoresAt sss t).map (·.weightedScore)

/-- Unfolding of the per-task record built by `aggregateResults` for `N ≥ 2`. -/
theorem aggregateResults_getD
    (rss : List (List TaskResult)) (sss : List (List CombinedScore)) (T t : ℕ)
    (hN : 2 ≤ rss.length) (hT : (rss.headD []).length = T) (ht : t < T) :
    (aggregateResults rss sss).getD t default =
      { taskId := ((runsAt rss t).getD
          (argminDist ((wsAt sss t).sum / (rss.length : ℚ)) (wsAt sss t)) default).taskId
        prompt := ((runsAt rss t).getD
          (argminDist ((wsAt sss t).sum / (rss.length : ℚ)) (wsAt sss t)) default).prompt
        output := ((runsAt rss t).getD
          (argminDist ((wsAt sss t).sum / (rss.length : ℚ)) (wsAt sss t)) default).output
        durationMs := ((runsAt rss t).map (·.durationMs)).sum
        numTurns := ((runsAt rss t).map (·.numTurns)).sum
        costUsd := ((runsAt rss t).map (·.costUsd)).sum
        skillLoads := firstOccur [] ((runsAt rss t).map (·.skillLoads)).flatten
        toolCalls := ((runsAt rss t).getD
          (argminDist ((wsAt sss t).sum / (rss.length : ℚ)) (wsAt sss t)) default).toolCalls
        isError := (runsAt rss t).any (·.isError)
        errorMessage := String.intercalate "; "
          (((runsAt rss t).filter (·.isError)).map (·.errorMessage)) } := by
  have h0 : ¬ (rss.length = 0) := by omega
  have h1 : ¬ (rss.length = 1) := by omega
  simp only [aggregateResults, if_neg h0, if_neg h1, hT, runsAt, scoresAt, wsAt]
  rw [getD_range_map _ T t ht]

/-- Unfolding of the per-task record built by `aggregateScores` for `N ≥ 2`. -/
theorem aggregateScores_getD
    (sss : List (List CombinedScore)) (T t : ℕ)
    (hN : 2 ≤ sss.length) (hT : (sss.headD []).length = T) (ht : t < T) :
    (aggregateScores sss).getD t default =
      { taskId := (((scoresAt sss t).getD 0 default : CombinedScore)).taskId
        deterministic := none
        judge := none
        discovery := ((scoresAt sss t).map (·.discovery)).sum / (sss.length : ℚ)
        adherence := ((scoresAt sss t).map (·.adherence)).sum / (sss.length : ℚ)
        outputQuality := ((scoresAt sss t).map (·.outputQuality)).sum / (sss.length : ℚ)
        weightedScore := ((scoresAt sss t).map (·.weightedScore)).sum / (sss.length : ℚ)
        failureCategory := modeCategory ((scoresAt sss t).map (·.failureCategory))
        reasoning :=
          "Aggregated over " ++ toString sss.length ++ " runs: discovery " ++
          toString ((scoresAt sss t).filter (fun s => s.discovery ≥ 1)).length ++
          "/" ++ toString sss.length ++
          ", mean adherence " ++ toFixed1
            (((scoresAt sss t).map (·.adherence)).sum / (sss.length : ℚ)) ++
          ", mean output " ++ toFixed1
            (((scoresAt sss t).map (·.outputQuality)).sum / (sss.length : ℚ)) } := by
  have h0 : ¬ (sss.length = 0) := by omega
  have h1 : ¬ (sss.length = 1) := by omega
  simp only [aggregateScores, if_neg h0, if_neg h1, hT, scoresAt]
  rw [getD_range_map _ T t ht]

-- ============================================
-- Claim C5
-- ============================================

/-- C5: for N ≥ 2 rectangular runs, the synthesized representative record sums
durationMs, numTurns and costUsd over the runs, deduplicates the union of
their skillLoads, errors iff any run errored, joins the errored error messages,
and takes output, tool calls, task id and prompt from the run whose weighted
score is closest to the mean weighted score, lowest index on ties. -/
theorem c5_representative_aggregation
    (rss : List (List TaskResult)) (sss : List (List CombinedScore)) (T t : ℕ)
    (hN : 2 ≤ rss.length) (hlen : sss.length = rss.length)
    (hr : ∀ rs ∈ rss, rs.length = T) (ht : t < T) :
    (aggregateResults rss sss).length = T ∧
    ((aggregateResults rss sss).getD t default).durationMs =
      ((runsAt rss t).map (·.durationMs)).sum ∧
    ((aggregateResults rss sss).getD t default).numTurns =
      ((runsAt rss t).map (·.numTurns)).sum ∧
    ((aggregateResults rss sss).getD t default).costUsd =
      ((runsAt rss t).map (·.costUsd)).sum ∧
    (∀ s, s ∈ ((aggregateResults rss sss).getD t default).skillLoads ↔
      ∃ r ∈ runsAt rss t, s ∈ r.skillLoads) ∧
    ((aggregateResults rss sss).getD t default).skillLoads.Nodup ∧
    (((aggregateResults rss sss).getD t default).isError = true ↔
      ∃ r ∈ runsAt rss t, r.isError = true) ∧
    ((aggregateResults rss sss).getD t default).errorMessage =
      String.intercalate "; "
        (((runsAt rss t).filter (·.isError)).map (·.errorMessage)) ∧
    (∀ i, isLeastArgmin
        (fun j => |(wsAt sss t).getD j 0 - (wsAt sss t).sum / (rss.length : ℚ)|)
        rss.length i →
      ((aggregateResults rss sss).getD t default).output =
        ((runsAt rss t).getD i default).output ∧
      ((aggregateResults rss sss).getD t default).toolCalls =
        ((runsAt rss t).getD i default).toolCalls ∧
      ((aggregateResults rss sss).getD t default).taskId =
        ((runsAt rss t).getD i default).taskId ∧
      ((aggregateResults rss sss).getD t default).prompt =
        ((runsAt rss t).getD i default).prompt) := by
  have hhead : rss.headD [] ∈ rss := by
    cases rss with
    | nil => simp at hN
    | cons a l => simp
  have hT : (rss.headD []).length = T := hr _ hhead
  have h0 : ¬ (rss.length = 0) := by omega
  have h1 : ¬ (rss.length = 1) := by omega
  refine ⟨?_, ?_⟩
  · simp only [aggregateResults, if_neg h0, if_neg h1, List.length_map,
      List.length_range]
    exact hT
  rw [aggregateResults_getD rss sss T t hN hT ht]
  refine ⟨rfl, rfl, rfl, ?_, nodup_firstOccur _ _, ?_, rfl, ?_⟩
  · intro s
    rw [mem_firstOccur]
    simp only [List.mem_flatten, List.mem_map, List.not_mem_nil, not_false_iff, and_true]
    constructor
    · rintro ⟨l, ⟨r, hrm, rfl⟩, hsl⟩
      exact ⟨r, hrm, hsl⟩
    · rintro ⟨r, hrm, hsl⟩
      exact ⟨r.skillLoads, ⟨r, hrm, rfl⟩, hsl⟩
  · simp [List.any_eq_true]
  · intro i hi
    have hws_len : (wsAt sss t).length = rss.length := by
      simp [wsAt, scoresAt, hlen]
    have hne : wsAt sss t ≠ [] := by
      intro hnil
      rw [hnil] at hws_len
      simp at hws_len
      omega
    have harg := argminDist_spec ((wsAt sss t).sum / (rss.length : ℚ)) (wsAt sss t) hne
    rw [hws_len] at harg
    have hieq := isLeastArgmin_unique hi harg
    subst hieq
    exact ⟨rfl, rfl, rfl, rfl⟩

def c5wR1 : TaskResult :=
  { taskId := "a", prompt := "p", output := "out-one", durationMs := 10,
    numTurns := 2, costUsd := 1, skillLoads := ["x"], toolCalls := [],
    isError := false, errorMessage := "" }

def c5wR2 : TaskResult :=
  { taskId := "a", prompt := "p", output := "out-two", durationMs := 30,
    numTurns := 4, costUsd := 2, skillLoads := ["x", "y"], toolCalls := [],
    isError := true, errorMessage := "bad" }

def c5wS1 : CombinedScore :=
  { taskId := "a", deterministic := none, judge := none, discovery := 1,
    adherence := 5, outputQuality := 5, weightedScore := 1,
    failureCategory := "none", reasoning := "" }

def c5wS2 : CombinedScore :=
  { taskId := "a", deterministic := none, judge := none, discovery := 0,
    adherence := 1, outputQuality := 1, weightedScore := 0,
    failureCategory := "agent_error", reasoning := "" }

/-- C5 witness: the theorem applied to two concrete runs of one task. -/
theorem c5_representative_aggregation_witness :
    2 ≤ ([[c5wR1], [c5wR2]] : List (List TaskResult)).length ∧
    ((aggregateResults [[c5wR1], [c5wR2]] [[c5wS1], [c5wS2]]).length = 1 ∧
    ((aggregateResults [[c5wR1], [c5wR2]] [[c5wS1], [c5wS2]]).getD 0 default).durationMs =
      ((runsAt [[c5wR1], [c5wR2]] 0).map (·.durationMs)).sum ∧
    ((aggregateResults [[c5wR1], [c5wR2]] [[c5wS1], [c5wS2]]).getD 0 default).numTurns =
      ((runsAt [[c5wR1], [c5wR2]] 0).map (·.numTurns)).sum ∧
    ((aggregateResults [[c5wR1], [c5wR2]] [[c5wS1], [c5wS2]]).getD 0 default).costUsd =
      ((runsAt [[c5wR1], [c5wR2]] 0).map (·.costUsd)).sum ∧
    (∀ s, s ∈ ((aggregateResults [[c5wR1], [c5wR2]] [[c5wS1], [c5wS2]]).getD 0 default).skillLoads ↔
      ∃ r ∈ runsAt [[c5wR1], [c5wR2]] 0, s ∈ r.skillLoads) ∧
    ((aggregateResults [[c5wR1], [c5wR2]] [[c5wS1], [c5wS2]]).getD 0 default).skillLoads.Nodup ∧
    (((aggregateResults [[c5wR1], [c5wR2]] [[c5wS1], [c5wS2]]).getD 0 default).isError = true ↔
      ∃ r ∈ runsAt [[c5wR1], [c5wR2]] 0, r.isError = true) ∧
    ((aggregateResults [[c5wR1], [c5wR2]] [[c5wS1], [c5wS2]]).getD 0 default).errorMessage =
      String.intercalate "; "
        (((runsAt [[c5wR1], [c5wR2]] 0).filter (·.isError)).map (·.errorMessage)) ∧
    (∀ i, isLeastArgmin
        (fun j => |(wsAt [[c5wS1], [c5wS2]] 0).getD j 0 -
          (wsAt [[c5wS1], [c5wS2]] 0).sum / (([[c5wR1], [c5wR2]] : List (List TaskResult)).length : ℚ)|)
        ([[c5wR1], [c5wR2]] : List (List TaskResult)).length i →
      ((aggregateResults [[c5wR1], [c5wR2]] [[c5wS1], [c5wS2]]).getD 0 default).output =
        ((runsAt [[c5wR1], [c5wR2]] 0).getD i default).output ∧
      ((aggregateResults [[c5wR1], [c5wR2]] [[c5wS1], [c5wS2]]).getD 0 default).toolCalls =
        ((runsAt [[c5wR1], [c5wR2]] 0).getD i default).toolCalls ∧
      ((aggregateResults [[c5wR1], [c5wR2]] [[c5wS1], [c5wS2]]).getD 0 default).taskId =
        ((runsAt [[c5wR1], [c5wR2]] 0).getD i default).taskId ∧
      ((aggregateResults [[c5wR1], [c5wR2]] [[c5wS1], [c5wS2]]).getD 0 default).prompt =
        ((runsAt [[c5wR1], [c5wR2]] 0).getD i default).prompt)) :=
  ⟨by decide,
   c5_representative_aggregation [[c5wR1], [c5wR2]] [[c5wS1], [c5wS2]] 1 0
     (by decide) rfl (by decide) (by decide)⟩

-- ============================================
-- Claim C6
-- ============================================

/-- C6: for N ≥ 2 rectangular runs, the aggregated discovery, adherence,
outputQuality and weightedScore are the arithmetic means of the per-trial
fields, and the aggregated failureCategory is the statistical mode of the
per-trial categories, ties broken by the category first seen in trial order. -/
theorem c6_score_aggregation
    (sss : List (List CombinedScore)) (T t : ℕ)
    (hN : 2 ≤ sss.length) (hs : ∀ ss ∈ sss, ss.length = T) (ht : t < T) :
    (aggregateScores sss).length = T ∧
    ((aggregateScores sss).getD t default).discovery =
      ((scoresAt sss t).map (·.discovery)).sum / (sss.length : ℚ) ∧
    ((aggregateScores sss).getD t default).adherence =
      ((scoresAt sss t).map (·.adherence)).sum / (sss.length : ℚ) ∧
    ((aggregateScores sss).getD t default).outputQuality =
      ((scoresAt sss t).map (·.outputQuality)).sum / (sss.length : ℚ) ∧
    ((aggregateScores sss).getD t default).weightedScore =
      ((scoresAt sss t).map (·.weightedScore)).sum / (sss.length : ℚ) ∧
    ((aggregateScores sss).getD t default).failureCategory ∈
      (scoresAt sss t).map (·.failureCategory) ∧
    (∀ x ∈ (scoresAt sss t).map (·.failureCategory),
      ((scoresAt sss t).map (·.failureCategory)).count x ≤
        ((scoresAt sss t).map (·.failureCategory)).count
          ((aggregateScores sss).getD t default).failureCategory) ∧
    (∀ x ∈ (scoresAt sss t).map (·.failureCategory),
      ((scoresAt sss t).map (·.failureCategory)).count x =
        ((scoresAt sss t).map (·.failureCategory)).count
          ((aggregateScores sss).getD t default).failureCategory →
      ((scoresAt sss t).map (·.failureCategory)).indexOf
          ((aggregateScores sss).getD t default).failureCategory ≤
        ((scoresAt sss t).map (·.failureCategory)).indexOf x) := by
  have hhead : sss.headD [] ∈ sss := by
    cases sss with
    | nil => simp at hN
    | cons a l => simp
  have hT : (sss.headD []).length = T := hs _ hhead
  have h0 : ¬ (sss.length = 0) := by omega
  have h1 : ¬ (sss.length = 1) := by omega
  have hcats_len : ((scoresAt sss t).map (·.failureCategory)).length = sss.length := by
    simp [scoresAt]
  have hcne : (scoresAt sss t).map (·.failureCategory) ≠ [] := by
    intro hnil
    rw [hnil] at hcats_len
    simp at hcats_len
    omega
  have hmode := modeCategory_spec ((scoresAt sss t).map (·.failureCategory)) hcne
  refine ⟨?_, ?_⟩
  · simp only [aggregateScores, if_neg h0, if_neg h1, List.length_map,
      List.length_range]
    exact hT
  rw [aggregateScores_getD sss T t hN hT ht]
  exact ⟨rfl, rfl, rfl, rfl, hmode.1, hmode.2.1, hmode.2.2⟩

def c6wS1 : CombinedScore :=
  { taskId := "b", deterministic := none, judge := none, discovery := 1,
    adherence := 4, outputQuality := 4, weightedScore := (4 : ℚ)/5,
    failureCategory := "none", reasoning := "" }

def c6wS2 : CombinedScore :=
  { taskId := "b", deterministic := none, judge := none, discovery := 0,
    adherence := 2, outputQuality := 2, weightedScore := (1 : ℚ)/5,
    failureCategory := "discovery_failure", reasoning := "" }

/-- C6 witness: the theorem applied to two concrete runs of one task. -/
theorem c6_score_aggregation_witness :
    2 ≤ ([[c6wS1], [c6wS2]] : List (List CombinedScore)).length ∧
    ((aggregateScores [[c6wS1], [c6wS2]]).length = 1 ∧
    ((aggregateScores [[c6wS1], [c6wS2]]).getD 0 default).discovery =
      ((scoresAt [[c6wS1], [c6wS2]] 0).map (·.discovery)).sum /
        (([[c6wS1], [c6wS2]] : List (List CombinedScore)).length : ℚ) ∧
    ((aggregateScores [[c6wS1], [c6wS2]]).getD 0 default).adherence =
      ((scoresAt [[c6wS1], [c6wS2]] 0).map (·.adherence)).sum /
        (([[c6wS1], [c6wS2]] : List (List CombinedScore)).length : ℚ) ∧
    ((aggregateScores [[c6wS1], [c6wS2]]).getD 0 default).outputQuality =
      ((scoresAt [[c6wS1], [c6wS2]] 0).map (·.outputQuality)).sum /
        (([[c6wS1], [c6wS2]] : List (List CombinedScore)).length : ℚ) ∧
    ((aggregateScores [[c6wS1], [c6wS2]]).getD 0 default).weightedScore =
      ((scoresAt [[c6wS1], [c6wS2]] 0).map (·.weightedScore)).sum /
        (([[c6wS1], [c6wS2]] : List (List CombinedScore)).length : ℚ) ∧
    ((aggregateScores [[c6wS1], [c6wS2]]).getD 0 default).failureCategory ∈
      (scoresAt [[c6wS1], [c6wS2]] 0).map (·.failureCategory) ∧
    (∀ x ∈ (scoresAt [[c6wS1], [c6wS2]] 0).map (·.failureCategory),
      ((scoresAt [[c6wS1], [c6wS2]] 0).map (·.failureCategory)).count x ≤
        ((scoresAt [[c6wS1], [c6wS2]] 0).map (·.failureCategory)).count
          ((aggregateScores [[c6wS1], [c6wS2]]).getD 0 default).failureCategory) ∧
    (∀ x ∈ (scoresAt [[c6wS1], [c6wS2]] 0).map (·.failureCategory),
      ((scoresAt [[c6wS1], [c6wS2]] 0).map (·.failureCategory)).count x =
        ((scoresAt [[c6wS1], [c6wS2]] 0).map (·.failureCategory)).count
          ((aggregateScores [[c6wS1], [c6wS2]]).getD 0 default).failureCategory →
      ((scoresAt [[c6wS1], [c6wS2]] 0).map (·.failureCategory)).indexOf
          ((aggregateScores [[c6wS1], [c6wS2]]).getD 0 default).failureCategory ≤
        ((scoresAt [[c6wS1], [c6wS2]] 0).map (·.failureCategory)).indexOf x)) :=
  ⟨by decide,
   c6_score_aggregation [[c6wS1], [c6wS2]] 1 0 (by decide) (by decide) (by decide)⟩
